import Mathlib

/-!
Formal model of `src/weather.py` (module `weather`).

The program is a thin client: `get_weather_data(location, forecast_days)`
validates the location, issues one HTTP GET, decodes the JSON body, and
aggregates per-day fields.  The embedding models decoded JSON values as the
inductive `JVal`, the network step as an oracle `NetResult` (either a
transport/status/decoding failure or a decoded body), and Python exceptions
that escape the function as `Except PyErr`.  Machine reals are modelled by
exact rationals: every claim checked here is decided by exact arithmetic on
small integer data, where Python's binary doubles agree.
-/

set_option autoImplicit false

namespace Weather

/-- A decoded JSON value as produced by `response.json()`.  JSON numbers
decode to Python `int` or `float`; the float payload is the exact rational
value of the decoded number. -/
inductive JVal where
  | null : JVal
  | bool : Bool → JVal
  | int : Int → JVal
  | float : Rat → JVal
  | str : String → JVal
  | arr : List JVal → JVal
  | obj : List (String × JVal) → JVal

/-- The Python exceptions the post-decode code can raise: `AttributeError`
from calling `.get` on a non-dict, `TypeError` from `len`, slicing or
iterating an unsupported type. -/
inductive PyErr where
  | attributeError : PyErr
  | typeError : PyErr
deriving DecidableEq

/-- Discriminator for `JVal.null`, i.e. the Python `is None` test on a
decoded value (JSON `null` decodes to `None`, and `dict.get` returns `None`
for a missing key). -/
def isNull : JVal → Bool
  | .null => true
  | _ => false

/-- Discriminator for JSON objects (Python dicts). -/
def isObj : JVal → Bool
  | .obj _ => true
  | _ => false

/-- Python string whitespace as stripped by `str.strip()` and by numeric
parsing (space, tab, newline, carriage return, vertical tab, form feed). -/
def isPySpace (c : Char) : Bool :=
  c == ' ' || c == '\t' || c == '\n' || c == '\r' || c == Char.ofNat 11 || c == Char.ofNat 12

/-- Embedding of `str.strip()`: remove leading and trailing whitespace. -/
def pyStrip (s : String) : String :=
  String.mk (((s.data.dropWhile isPySpace).reverse.dropWhile isPySpace).reverse)

/-- Numeric value of a decimal digit character. -/
def digitVal (c : Char) : Nat := c.toNat - 48

/-- Consume a maximal run of decimal digits with Python's underscore rule
(an underscore may appear only between two digits).  `prevDigit` records
whether the previously consumed character was a digit.  Returns the value,
the number of digits consumed, and the unconsumed remainder; returns `none`
when the run is empty or an underscore is misplaced. -/
def takeDigits (prevDigit : Bool) (acc count : Nat) : List Char → Option (Nat × Nat × List Char)
  | [] => if prevDigit then some (acc, count, []) else none
  | c :: rest =>
    if c.isDigit then takeDigits true (acc * 10 + digitVal c) (count + 1) rest
    else if c == '_' then
      (if prevDigit then takeDigits false acc count rest else none)
    else
      (if prevDigit then some (acc, count, c :: rest) else none)

/-- A full run of digits (underscore rule included) with nothing left over. -/
def parseIntDigits (l : List Char) : Option Nat :=
  match takeDigits false 0 0 l with
  | some (v, _, []) => some v
  | _ => none

/-- An optional sign followed by a full digit run. -/
def parseSignedDigits : List Char → Option Int
  | '+' :: rest => (parseIntDigits rest).map (fun n => (n : Int))
  | '-' :: rest => (parseIntDigits rest).map (fun n => -(n : Int))
  | l => (parseIntDigits l).map (fun n => (n : Int))

/-- Embedding of Python `int(s)` on a string: strip surrounding whitespace,
then an optional sign and a base-10 digit run (underscores allowed between
digits); `none` when the string is not a valid integer literal. -/
def parseIntPy (s : String) : Option Int :=
  parseSignedDigits (((s.data.dropWhile isPySpace).reverse.dropWhile isPySpace).reverse)

/-- Embedding of `_safe_int` (weather.py lines 9-13): `int(str(value))` with
`None` on any failure.  Composing Python `str` with `int` collapses by value
class: an int round-trips through its decimal string; for a string, `str` is
the identity and `int` applies integer-literal parsing; `str` of `None`, a
bool, a float, a list or a dict yields `"None"`, `"True"`/`"False"`, a
rendering containing a decimal point or exponent, or a bracketed rendering,
none of which parses as an integer. -/
def safeInt : JVal → Option Int
  | .int n => some n
  | .str s => parseIntPy s
  | _ => none

/-- A Python float value: finite (exact rational model of the double),
infinite, or NaN. -/
inductive PyFloat where
  | finite : Rat → PyFloat
  | inf : Bool → PyFloat
  | nan : PyFloat
deriving DecidableEq

/-- Lower-case an ASCII letter (for case-insensitive `inf`/`nan` parsing). -/
def lcChar (c : Char) : Char :=
  if 65 ≤ c.toNat && c.toNat ≤ 90 then Char.ofNat (c.toNat + 32) else c

/-- Ten to an integer power, as a rational. -/
def ratPow10 (e : Int) : Rat :=
  if 0 ≤ e then ((10 ^ e.toNat : Nat) : Rat) else 1 / ((10 ^ (-e).toNat : Nat) : Rat)

/-- Parse the mantissa of a float literal: `digits [. digits]`, `digits .`,
or `. digits`, with Python's underscore rule inside each digit run.
Returns the value and the remainder (which the caller requires to be empty
or an exponent part). -/
def parseMantissa (l : List Char) : Option (Rat × List Char) :=
  match takeDigits false 0 0 l with
  | some (ip, _, rest) =>
    match rest with
    | '.' :: r2 =>
      match r2 with
      | c :: _ =>
        if c.isDigit then
          match takeDigits false 0 0 r2 with
          | some (fp, fc, r3) => some ((ip : Rat) + (fp : Rat) / ((10 ^ fc : Nat) : Rat), r3)
          | none => none
        else some ((ip : Rat), r2)
      | [] => some ((ip : Rat), [])
    | _ => some ((ip : Rat), rest)
  | none =>
    match l with
    | '.' :: r2 =>
      match takeDigits false 0 0 r2 with
      | some (fp, fc, r3) => some ((fp : Rat) / ((10 ^ fc : Nat) : Rat), r3)
      | none => none
    | _ => none

/-- Parse an unsigned float body: the special words `inf`, `infinity`, `nan`
(case-insensitive) or a decimal mantissa with an optional exponent. -/
def parseFloatBody (l : List Char) : Option PyFloat :=
  let low := l.map lcChar
  if low == "inf".data || low == "infinity".data then some (.inf false)
  else if low == "nan".data then some .nan
  else
    match parseMantissa l with
    | some (m, rest) =>
      match rest with
      | [] => some (.finite m)
      | c :: r2 =>
        if c == 'e' || c == 'E' then
          match parseSignedDigits r2 with
          | some e => some (.finite (m * ratPow10 e))
          | none => none
        else none
    | none => none

/-- Negate a Python float. -/
def negFloat : PyFloat → PyFloat
  | .finite q => .finite (-q)
  | .inf b => .inf (!b)
  | .nan => .nan

/-- Embedding of Python `float(s)` on a string: strip whitespace, then an
optional sign and either a special word or a decimal literal. -/
def parseFloatPy (s : String) : Option PyFloat :=
  match ((s.data.dropWhile isPySpace).reverse.dropWhile isPySpace).reverse with
  | '+' :: rest => parseFloatBody rest
  | '-' :: rest => (parseFloatBody rest).map negFloat
  | l => parseFloatBody l

/-- Embedding of `_safe_float` (weather.py lines 16-20): `float(str(value))`
with `None` on any failure.  As with `_safe_int`, `str` collapses by value
class: ints and floats round-trip (modelled exactly; Python rounds ints
beyond double precision), strings parse by Python float-literal rules, and
`str` of `None`, bools, lists and dicts never parses as a float. -/
def safeFloat : JVal → Option PyFloat
  | .int n => some (.finite (n : Rat))
  | .float q => some (.finite q)
  | .str s => parseFloatPy s
  | _ => none

/-- Python truthiness of a decoded JSON value: `None`, `False`, zero, and
empty strings/lists/dicts are falsy. -/
def truthy : JVal → Bool
  | .null => false
  | .bool b => b
  | .int n => n != 0
  | .float q => decide (q ≠ 0)
  | .str s => !s.data.isEmpty
  | .arr xs => !xs.isEmpty
  | .obj kvs => !kvs.isEmpty

/-- Lookup in a decoded JSON object (a Python dict, keys distinct). -/
def dictGet (kvs : List (String × JVal)) (key : String) : Option JVal :=
  match kvs.find? (fun kv => kv.1 == key) with
  | some kv => some kv.2
  | none => none

/-- Embedding of Python `x.get(key)` on a decoded value: a dict returns the
stored value with `None` as default (a stored JSON `null` is also `None`);
any non-dict receiver raises `AttributeError`. -/
def pyGet : JVal → String → Except PyErr JVal
  | .obj kvs, key => .ok ((dictGet kvs key).getD .null)
  | _, _ => .error .attributeError

/-- Embedding of Python `len(x)`: defined for strings, lists and dicts;
`TypeError` otherwise. -/
def pyLen : JVal → Except PyErr Nat
  | .str s => .ok s.data.length
  | .arr xs => .ok xs.length
  | .obj kvs => .ok kvs.length
  | _ => .error .typeError

/-- Embedding of Python iteration `for x in v`: lists yield elements,
strings yield one-character strings, dicts yield their keys; anything else
raises `TypeError`. -/
def pyIter : JVal → Except PyErr (List JVal)
  | .arr xs => .ok xs
  | .str s => .ok (s.data.map (fun c => .str (String.mk [c])))
  | .obj kvs => .ok (kvs.map (fun kv => .str kv.1))
  | _ => .error .typeError

/-- Embedding of Python slicing `v[:k]` for the nonnegative `k` used here:
defined for lists and strings; `TypeError` otherwise (a dict is not
sliceable). -/
def pySliceTo (v : JVal) (k : Nat) : Except PyErr JVal :=
  match v with
  | .arr xs => .ok (.arr (xs.take k))
  | .str s => .ok (.str (String.mk (s.data.take k)))
  | _ => .error .typeError

/-- Truncation of a rational toward zero, as Python `int(float)` does. -/
def ratTruncInt (q : Rat) : Int := Int.tdiv q.num (q.den : Int)

/-- Embedding of bare `int(x)` (weather.py line 55): an int is returned
unchanged, a bool becomes 0/1, a float truncates toward zero, a string
parses by integer-literal rules; `None`, lists and dicts raise `TypeError`
(modelled as `none`; the caller's `try` catches every failure). -/
def pyIntCoerce : JVal → Option Int
  | .int n => some n
  | .bool b => some (if b then 1 else 0)
  | .float q => some (ratTruncInt q)
  | .str s => parseIntPy s
  | _ => none

/-- Python `round` to the nearest integer, ties to even, on the exact
rational model of the float argument. -/
def pyRound (q : Rat) : Int :=
  if q - (⌊q⌋ : Rat) < 1 / 2 then ⌊q⌋
  else if q - (⌊q⌋ : Rat) > 1 / 2 then ⌊q⌋ + 1
  else if ⌊q⌋ % 2 = 0 then ⌊q⌋ else ⌊q⌋ + 1

/-- Whether `urllib.parse.quote` leaves a byte unescaped with the default
`safe="/"`: ASCII letters, digits, `_`, `.`, `-`, `~` and `/`. -/
def quoteSafe (b : Nat) : Bool :=
  (65 ≤ b && b ≤ 90) || (97 ≤ b && b ≤ 122) || (48 ≤ b && b ≤ 57) ||
    b == 95 || b == 46 || b == 45 || b == 126 || b == 47

/-- Upper-case hexadecimal digit. -/
def hexDigit (n : Nat) : Char :=
  if n < 10 then Char.ofNat (48 + n) else Char.ofNat (55 + n)

/-- Percent-encode one UTF-8 byte as `quote` does. -/
def quoteByte (b : Nat) : List Char :=
  if quoteSafe b then [Char.ofNat b] else [Char.ofNat 37, hexDigit (b / 16), hexDigit (b % 16)]

/-- Embedding of `urllib.parse.quote(s)`: percent-encode the UTF-8 bytes of
the string, keeping the default safe set. -/
def pyQuote (s : String) : String :=
  String.mk ((s.data.map (fun c => ((String.utf8EncodeChar c).map (fun b => quoteByte b.toNat)).flatten)).flatten)

/-- The request URL built on weather.py line 39. -/
def buildUrl (location : String) : String :=
  "https://wttr.in/" ++ pyQuote (pyStrip location) ++ "?format=j1"

/-- Outcome of the guarded network step (lines 41-47): `fail` covers a
transport error, a non-success status, and a JSON-decoding failure — all
caught by the same `except`; `ok` carries the decoded body. -/
inductive NetResult where
  | fail : NetResult
  | ok : JVal → NetResult

/-- One aggregated day of the output (the dict built on lines 76-82; field
names stand for `date`, `temp`, `humidity`, `wind`, `precipitation`). -/
structure DayOut where
  date : JVal
  temp : Option Int
  humidity : Option Int
  wind : Option Int
  precip : Option PyFloat

/-- The successful return value (line 84): the caller's original location
string and the ordered forecast list. -/
structure ForecastResult where
  location : String
  forecast : List DayOut

/-- Observable behaviour of one call: the URLs requested (at most one) and
the return value, with an uncaught Python exception modelled as `.error`. -/
structure Call where
  requests : List String
  retval : Except PyErr (Option ForecastResult)

/-- Embedding of the idiom `x or []` (lines 49 and 66): the left operand if
truthy, otherwise the empty list. -/
def pyOrList (v : JVal) : JVal := if truthy v then v else .arr []

/-- Embedding of the hourly comprehensions (lines 67-68):
`[_safe_int(h.get(key)) for h in hs if h.get(key) is not None]`.
Each element's `.get` can raise when the element is not a dict. -/
def collectVals (key : String) : List JVal → Except PyErr (List (Option Int))
  | [] => .ok []
  | h :: rest =>
    match pyGet h key with
    | .error e => .error e
    | .ok v =>
      match collectVals key rest with
      | .error e => .error e
      | .ok tail => .ok (if isNull v then tail else safeInt v :: tail)

/-- Embedding of `round(sum(l) / len(l)) if l else None` (line 71). -/
def avgRound (l : List Int) : Option Int :=
  if l.isEmpty then none
  else some (pyRound ((l.sum : Rat) / (l.length : Rat)))

/-- Embedding of `max(l) if l else None` (line 74). -/
def listMax : List Int → Option Int
  | [] => none
  | x :: xs => some (xs.foldl max x)

/-- Embedding of one iteration of the per-day loop (lines 61-82). -/
def processDay (day : JVal) : Except PyErr DayOut :=
  match pyGet day "date" with
  | .error e => .error e
  | .ok date =>
    match pyGet day "avgtempC" with
    | .error e => .error e
    | .ok tv =>
      match pyGet day "totalprecipMM" with
      | .error e => .error e
      | .ok pv =>
        match pyGet day "hourly" with
        | .error e => .error e
        | .ok hv =>
          match pyIter (pyOrList hv) with
          | .error e => .error e
          | .ok hs =>
            match collectVals "humidity" hs with
            | .error e => .error e
            | .ok humidities =>
              match collectVals "windspeedKmph" hs with
              | .error e => .error e
              | .ok winds =>
                .ok { date := date, temp := safeInt tv,
                      humidity := avgRound (humidities.filterMap id),
                      wind := listMax (winds.filterMap id),
                      precip := safeFloat pv }

/-- The per-day loop over the sliced list, building `forecast` in order. -/
def processDays : List JVal → Except PyErr (List DayOut)
  | [] => .ok []
  | d :: rest =>
    match processDay d with
    | .error e => .error e
    | .ok o =>
      match processDays rest with
      | .error e => .error e
      | .ok os => .ok (o :: os)

/-- Embedding of lines 49-84, from the decoded body to the return value:
shape check on `weather`, day-count resolution, slicing, per-day reduction,
result assembly. -/
def aggregate (locS : String) (fd : JVal) (data : JVal) : Except PyErr (Option ForecastResult) :=
  match pyGet data "weather" with
  | .error e => .error e
  | .ok w =>
    let days := pyOrList w
    if truthy days then
      let nd0 : Int :=
        match pyIntCoerce fd with
        | some k => max 1 k
        | none => 5
      match pyLen days with
      | .error e => .error e
      | .ok n =>
        match pySliceTo days (min nd0 (n : Int)).toNat with
        | .error e => .error e
        | .ok sliced =>
          match pyIter sliced with
          | .error e => .error e
          | .ok items =>
            match processDays items with
            | .error e => .error e
            | .ok fc => .ok (some { location := locS, forecast := fc })
    else .ok none

/-- Embedding of `get_weather_data` (weather.py lines 23-84).  The location
and day count are arbitrary Python values (callers may pass anything); the
network outcome for the built URL is the oracle `net`. -/
def get_weather_data (location : JVal) (forecast_days : JVal) (net : NetResult) : Call :=
  match location with
  | .str s =>
    if pyStrip s = "" then { requests := [], retval := .ok none }
    else
      match net with
      | .fail => { requests := [buildUrl s], retval := .ok none }
      | .ok data => { requests := [buildUrl s], retval := aggregate s forecast_days data }
  | _ => { requests := [], retval := .ok none }

/-! Spec-side definitions and shape predicates used to state the claims. -/

/-- The list the comprehension of line 67/68 produces for a list of hourly
dicts: one `Option Int` per present (non-`None`) value under `key`. -/
def hourlyOpts (key : String) (hs : List JVal) : List (Option Int) :=
  hs.filterMap (fun h =>
    match h with
    | .obj kvs =>
      let v := (dictGet kvs key).getD .null
      if isNull v then none else some (safeInt v)
    | _ => none)

/-- Spec-side definition (spec §4.1 steps 3-4): the integer-coercible subset
of the present hourly values under `key`, in upstream order; a
present-but-uncoercible value contributes nothing. -/
def presentCoercible (key : String) (hs : List JVal) : List Int :=
  hs.filterMap (fun h =>
    match h with
    | .obj kvs =>
      let v := (dictGet kvs key).getD .null
      if isNull v then none else safeInt v
    | _ => none)

/-- Spec-side definition (spec §3, `humidity`): the arithmetic mean of the
coercible subset, rounded to the nearest integer; null when the subset is
empty. -/
def specHumidity (hs : List JVal) : Option Int :=
  let vals := presentCoercible "humidity" hs
  if vals.isEmpty then none
  else some (pyRound ((vals.sum : Rat) / (vals.length : Rat)))

/-- The `or []`-normalised hourly list of a daily-entry dict. -/
def hourlyListOf (kvs : List (String × JVal)) : JVal :=
  pyOrList ((dictGet kvs "hourly").getD .null)

/-- A daily entry of a shape the per-day loop survives: a JSON object whose
`hourly` value, when truthy, is a list of JSON objects. -/
def goodDay : JVal → Bool
  | .obj kvs =>
    let v := (dictGet kvs "hourly").getD .null
    if truthy v then
      match v with
      | .arr hs => hs.all isObj
      | _ => false
    else true
  | _ => false

/-- A decoded body of a shape the post-decode code survives: a JSON object
whose `weather` value, when truthy, is a list of good daily entries. -/
def goodBody : JVal → Bool
  | .obj kvs =>
    let w := (dictGet kvs "weather").getD .null
    if truthy w then
      match w with
      | .arr ds => ds.all goodDay
      | _ => false
    else true
  | _ => false

/-! Concrete sample data used by the witnesses. -/

/-- The day count the claims predict (spec §4.6): `min(max(D,1), N)` when
the requested count coerces to an integer `D`, else `min(5, N)`. -/
def resolvedDaysCount (dOpt : Option Int) (N : Nat) : Nat :=
  match dOpt with
  | some d => min (max d 1).toNat N
  | none => min 5 N

def c1Days : List JVal := [.obj [("date", .str "a")], .obj [("date", .str "b")]]

def c1Body : JVal := .obj [("weather", .arr c1Days)]

def c8Body : JVal := .obj [("weather", .arr [.obj [("date", .str "d")]])]

def c10Body : JVal := .obj [("weather", .arr [.obj [("date", .str "d1")],
  .obj [("date", .str "d2")], .obj [("date", .str "d3")]])]

def c2Hs : List JVal := [.obj [("humidity", .int 50)], .obj [("humidity", .int 60)],
  .obj [("humidity", .int 70)]]

def c2Kvs : List (String × JVal) := [("hourly", .arr c2Hs)]

def c2WitnessHs : List JVal := [.obj [("humidity", .str "77")], .obj [("humidity", .str "na")]]

def c5Day : JVal := .obj [("date", .str "2025-01-01"), ("avgtempC", .str "n/a"),
  ("totalprecipMM", .str "n/a")]

def c5Body : JVal := .obj [("weather", .arr [c5Day])]

def c6Hs : List JVal := [.obj [("windspeedKmph", .int 10)], .obj [("windspeedKmph", .int 25)],
  .obj [("windspeedKmph", .int 15)]]

def c6Kvs : List (String × JVal) := [("hourly", .arr c6Hs)]

def c9Hs : List JVal := [
  .obj [("humidity", .float (101 / 2)), ("windspeedKmph", .float (21 / 2))],
  .obj [("humidity", .int 60), ("windspeedKmph", .int 25)],
  .obj [("humidity", .bool true), ("windspeedKmph", .bool true)]]

def c9Kvs : List (String × JVal) := [("hourly", .arr c9Hs)]

/-! Helper lemmas. -/

theorem truthy_pyOrList (v : JVal) : truthy (pyOrList v) = truthy v := by
  by_cases h : truthy v
  · rw [pyOrList, if_pos h]
  · rw [pyOrList, if_neg h]
    exact ((Bool.not_eq_true _).mp h).symm

theorem pyRound_intCast (n : Int) : pyRound ((n : Int) : Rat) = n := by
  unfold pyRound
  norm_num

theorem pyRound_nearest (q : Rat) : |(pyRound q : Rat) - q| ≤ 1 / 2 := by
  have h0 : (⌊q⌋ : Rat) ≤ q := Int.floor_le q
  have h1 : q < (⌊q⌋ : Rat) + 1 := Int.lt_floor_add_one q
  unfold pyRound
  by_cases hlt : q - (⌊q⌋ : Rat) < 1 / 2
  · rw [if_pos hlt, abs_le]
    constructor <;> linarith
  · rw [if_neg hlt]
    by_cases hgt : q - (⌊q⌋ : Rat) > 1 / 2
    · rw [if_pos hgt, abs_le]
      constructor <;> push_cast <;> linarith
    · rw [if_neg hgt]
      have heq : q - (⌊q⌋ : Rat) = 1 / 2 := le_antisymm (not_lt.mp hgt) (not_lt.mp hlt)
      by_cases hpar : ⌊q⌋ % 2 = 0 <;>
        [rw [if_pos hpar]; rw [if_neg hpar]] <;> rw [abs_le] <;>
        constructor <;> push_cast <;> linarith

theorem collectVals_eq (key : String) (hs : List JVal)
    (hobj : ∀ h ∈ hs, isObj h = true) :
    collectVals key hs = .ok (hourlyOpts key hs) := by
  induction hs with
  | nil => rfl
  | cons h rest ih =>
    have hh : isObj h = true := hobj h (List.mem_cons_self h rest)
    obtain ⟨kvs, rfl⟩ : ∃ kvs, h = .obj kvs := by
      cases h <;> simp [isObj] at hh
      exact ⟨_, rfl⟩
    rw [collectVals, ih (fun x hx => hobj x (List.mem_cons_of_mem _ hx))]
    by_cases hv : isNull ((dictGet kvs key).getD .null) <;>
      simp [pyGet, hourlyOpts, List.filterMap_cons, hv]

theorem hourlyOpts_filterMap (key : String) (hs : List JVal) :
    (hourlyOpts key hs).filterMap id = presentCoercible key hs := by
  induction hs with
  | nil => rfl
  | cons h rest ih =>
    cases h <;> simp only [hourlyOpts, presentCoercible, List.filterMap_cons] at ih ⊢
    all_goals try exact ih
    rename_i kvs
    by_cases hv : isNull ((dictGet kvs key).getD .null)
    · simpa [hv] using ih
    · cases hsi : safeInt ((dictGet kvs key).getD .null) <;>
        · simp [hv, hsi, List.filterMap_cons]
          exact ih

theorem listMax_spec (l : List Int) (m : Int) (h : listMax l = some m) :
    m ∈ l ∧ ∀ x ∈ l, x ≤ m := by
  have key : ∀ (xs : List Int) (a : Int),
      (xs.foldl max a = a ∨ xs.foldl max a ∈ xs) ∧
        a ≤ xs.foldl max a ∧ ∀ x ∈ xs, x ≤ xs.foldl max a := by
    intro xs
    induction xs with
    | nil => intro a; simp
    | cons y ys ih =>
      intro a
      obtain ⟨hmem, hle, hub⟩ := ih (max a y)
      refine ⟨?_, ?_, ?_⟩
      · rcases hmem with heq | hmem
        · rcases max_choice a y with hm | hm
          · left; rw [List.foldl_cons, heq, hm]
          · right; rw [List.foldl_cons, heq, hm]; exact List.mem_cons_self y ys
        · right; exact List.mem_cons_of_mem y hmem
      · exact le_trans (le_max_left a y) hle
      · intro x hx
        rcases List.mem_cons.mp hx with rfl | hx
        · exact le_trans (le_max_right a x) hle
        · exact hub x hx
  cases l with
  | nil => simp [listMax] at h
  | cons x xs =>
    rw [listMax] at h
    obtain rfl : xs.foldl max x = m := by injection h
    obtain ⟨hmem, hle, hub⟩ := key xs x
    refine ⟨?_, ?_⟩
    · rcases hmem with heq | hmem
      · rw [heq]; exact List.mem_cons_self x xs
      · exact List.mem_cons_of_mem x hmem
    · intro z hz
      rcases List.mem_cons.mp hz with rfl | hz
      · exact hle
      · exact hub z hz

theorem processDays_length (l : List JVal) (os : List DayOut)
    (h : processDays l = .ok os) : os.length = l.length := by
  induction l generalizing os with
  | nil =>
    rw [processDays] at h
    obtain rfl : ([] : List DayOut) = os := by injection h
    rfl
  | cons d rest ih =>
    rw [processDays] at h
    cases hpd : processDay d with
    | error e => rw [hpd] at h; exact absurd h (by simp)
    | ok o =>
      rw [hpd] at h
      cases hpr : processDays rest with
      | error e => rw [hpr] at h; exact absurd h (by simp)
      | ok os2 =>
        rw [hpr] at h
        obtain rfl : o :: os2 = os := by injection h
        simp [ih os2 hpr]

theorem processDay_obj (kvs : List (String × JVal)) (hs : List JVal)
    (hhl : hourlyListOf kvs = .arr hs) (hobj : ∀ h ∈ hs, isObj h = true) :
    processDay (.obj kvs) =
      .ok { date := (dictGet kvs "date").getD .null,
            temp := safeInt ((dictGet kvs "avgtempC").getD .null),
            humidity := avgRound (presentCoercible "humidity" hs),
            wind := listMax (presentCoercible "windspeedKmph" hs),
            precip := safeFloat ((dictGet kvs "totalprecipMM").getD .null) } := by
  have hiter : pyIter (pyOrList ((dictGet kvs "hourly").getD .null)) = .ok hs := by
    rw [show pyOrList ((dictGet kvs "hourly").getD .null) = hourlyListOf kvs from rfl, hhl]
    rfl
  rw [show processDay (.obj kvs) =
      (match pyIter (pyOrList ((dictGet kvs "hourly").getD .null)) with
       | .error e => Except.error e
       | .ok hs2 =>
         match collectVals "humidity" hs2 with
         | .error e => .error e
         | .ok humidities =>
           match collectVals "windspeedKmph" hs2 with
           | .error e => .error e
           | .ok winds =>
             .ok { date := (dictGet kvs "date").getD .null,
                   temp := safeInt ((dictGet kvs "avgtempC").getD .null),
                   humidity := avgRound (humidities.filterMap id),
                   wind := listMax (winds.filterMap id),
                   precip := safeFloat ((dictGet kvs "totalprecipMM").getD .null) }) from rfl]
  rw [hiter]
  simp only [collectVals_eq "humidity" hs hobj, collectVals_eq "windspeedKmph" hs hobj,
    hourlyOpts_filterMap]

theorem goodDay_shape (d : JVal) (hg : goodDay d = true) :
    ∃ kvs hs, d = .obj kvs ∧ hourlyListOf kvs = .arr hs ∧ ∀ h ∈ hs, isObj h = true := by
  cases d <;> simp only [goodDay, Bool.false_eq_true] at hg
  rename_i kvs
  refine ⟨kvs, ?_⟩
  by_cases ht : truthy ((dictGet kvs "hourly").getD .null)
  · rw [if_pos ht] at hg
    cases hv : (dictGet kvs "hourly").getD .null <;> rw [hv] at hg ht <;> try simp at hg
    rename_i hs
    refine ⟨hs, rfl, ?_, ?_⟩
    · rw [hourlyListOf, hv, pyOrList, if_pos ht]
    · exact hg
  · refine ⟨[], rfl, ?_, by simp⟩
    rw [hourlyListOf, pyOrList, if_neg ht]

theorem processDay_ok (d : JVal) (hg : goodDay d = true) :
    ∃ o, processDay d = .ok o := by
  obtain ⟨kvs, hs, rfl, hhl, hobj⟩ := goodDay_shape d hg
  exact ⟨_, processDay_obj kvs hs hhl hobj⟩

theorem processDays_ok (l : List JVal) (hg : ∀ d ∈ l, goodDay d = true) :
    ∃ os, processDays l = .ok os := by
  induction l with
  | nil => exact ⟨[], rfl⟩
  | cons d rest ih =>
    obtain ⟨o, ho⟩ := processDay_ok d (hg d (List.mem_cons_self d rest))
    obtain ⟨os, hos⟩ := ih (fun x hx => hg x (List.mem_cons_of_mem _ hx))
    exact ⟨o :: os, by rw [processDays, ho, hos]⟩

theorem aggregate_weather_arr (locS : String) (fd : JVal) (data : JVal) (ds : List JVal)
    (hw : pyGet data "weather" = .ok (.arr ds)) (hne : ds ≠ []) :
    aggregate locS fd data =
      (processDays (ds.take (resolvedDaysCount (pyIntCoerce fd) ds.length))).map
        (fun fc => some { location := locS, forecast := fc }) := by
  have ht : truthy (JVal.arr ds) = true := by
    simp [truthy, hne]
  have hpo : pyOrList (.arr ds) = .arr ds := by rw [pyOrList, if_pos ht]
  have hk : (min (match pyIntCoerce fd with
      | some k => max 1 k
      | none => (5:Int)) ((ds.length : Nat) : Int)).toNat
      = resolvedDaysCount (pyIntCoerce fd) ds.length := by
    have hlen : 1 ≤ ds.length := by
      cases ds with
      | nil => exact absurd rfl hne
      | cons a l => simp
    cases pyIntCoerce fd with
    | none => simp only [resolvedDaysCount]; omega
    | some d =>
      simp only [resolvedDaysCount]
      rcases le_total d 1 with hle | hle
      · rw [max_eq_left hle, max_eq_right hle]; omega
      · rw [max_eq_right hle, max_eq_left hle]; omega
  unfold aggregate
  rw [hw]
  simp only [hpo, ht, if_true]
  simp only [pyLen, pySliceTo, pyIter]
  rw [hk]
  cases hps : processDays (ds.take (resolvedDaysCount (pyIntCoerce fd) ds.length)) <;>
    simp [Except.map, hps]

theorem aggregate_ok_some (locS : String) (fd : JVal) (data : JVal) (r : ForecastResult)
    (h : aggregate locS fd data = .ok (some r)) :
    r.location = locS ∧ ∃ kvs ds, data = .obj kvs ∧
      (dictGet kvs "weather").getD .null = .arr ds ∧ ds ≠ [] ∧
      1 ≤ r.forecast.length ∧ r.forecast.length ≤ ds.length := by
  have hnd : ∀ fdo : Option Int,
      1 ≤ (match fdo with | some k => max 1 k | none => (5:Int)) := by
    intro fdo
    cases fdo with
    | none => norm_num
    | some k => exact le_max_left 1 k
  cases data with
  | null => simp [aggregate, pyGet] at h
  | bool b => simp [aggregate, pyGet] at h
  | int n => simp [aggregate, pyGet] at h
  | float q => simp [aggregate, pyGet] at h
  | str s => simp [aggregate, pyGet] at h
  | arr xs => simp [aggregate, pyGet] at h
  | obj kvs =>
    unfold aggregate at h
    simp only [pyGet] at h
    by_cases htw : truthy ((dictGet kvs "weather").getD .null)
    · rw [show pyOrList ((dictGet kvs "weather").getD .null)
          = (dictGet kvs "weather").getD .null from by rw [pyOrList, if_pos htw]] at h
      rw [if_pos htw] at h
      cases hv : (dictGet kvs "weather").getD .null with
      | null => rw [hv] at htw; simp [truthy] at htw
      | bool b => rw [hv] at h; simp [pyLen] at h
      | int n => rw [hv] at h; simp [pyLen] at h
      | float q => rw [hv] at h; simp [pyLen] at h
      | obj kvs2 => rw [hv] at h; simp [pyLen, pySliceTo] at h
      | str s =>
        rw [hv] at h htw
        simp only [pyLen, pySliceTo, pyIter] at h
        have hsd : s.data ≠ [] := by
          intro hnil
          rw [truthy, hnil] at htw
          simp at htw
        have hk1 : 1 ≤ (min (match pyIntCoerce fd with
            | some k => max 1 k
            | none => (5:Int)) ((s.data.length : Nat) : Int)).toNat := by
          have := hnd (pyIntCoerce fd)
          have hlen : 1 ≤ s.data.length := by
            cases hc : s.data with
            | nil => exact absurd hc hsd
            | cons c cs => simp
          omega
        cases hc : s.data with
        | nil => exact absurd hc hsd
        | cons c cs =>
          rw [hc] at h hk1
          obtain ⟨m, hm⟩ := Nat.exists_eq_succ_of_ne_zero
            (show (min (match pyIntCoerce fd with
              | some k => max 1 k
              | none => (5:Int)) (((c :: cs).length : Nat) : Int)).toNat ≠ 0 by omega)
          rw [hm] at h
          simp [List.take_succ_cons, processDays, processDay, pyGet] at h
      | arr ds =>
        rw [hv] at h htw
        simp only [pyLen, pySliceTo, pyIter] at h
        have hne : ds ≠ [] := by
          intro hnil
          rw [truthy, hnil] at htw
          simp at htw
        cases hps : processDays (ds.take (min (match pyIntCoerce fd with
            | some k => max 1 k
            | none => (5:Int)) ((ds.length : Nat) : Int)).toNat) with
        | error e => rw [hps] at h; simp at h
        | ok fc =>
          rw [hps] at h
          simp only [Except.ok.injEq, Option.some.injEq] at h
          subst h
          refine ⟨rfl, kvs, ds, rfl, hv, hne, ?_, ?_⟩
          · have hl := processDays_length _ _ hps
            have hlt := List.length_take (min (match pyIntCoerce fd with
              | some k => max 1 k
              | none => (5:Int)) ((ds.length : Nat) : Int)).toNat ds
            have hnd2 := hnd (pyIntCoerce fd)
            have hlen : 1 ≤ ds.length := by
              cases hc : ds with
              | nil => exact absurd hc hne
              | cons c cs => simp
            simp only [hl, hlt]
            omega
          · have hl := processDays_length _ _ hps
            have hlt := List.length_take (min (match pyIntCoerce fd with
              | some k => max 1 k
              | none => (5:Int)) ((ds.length : Nat) : Int)).toNat ds
            simp only [hl, hlt]
            omega
    · rw [show pyOrList ((dictGet kvs "weather").getD .null)
          = .arr [] from by rw [pyOrList, if_neg htw]] at h
      rw [show truthy (JVal.arr []) = false from rfl] at h
      simp at h

theorem gwd_str_unfold (s : String) (fd : JVal) (net : NetResult) :
    get_weather_data (.str s) fd net
      = if pyStrip s = "" then ⟨[], .ok none⟩
        else match net with
          | .fail => ⟨[buildUrl s], .ok none⟩
          | .ok data => ⟨[buildUrl s], aggregate s fd data⟩ := rfl

theorem gwd_str_blank (s : String) (hs : pyStrip s = "") (fd : JVal) (net : NetResult) :
    get_weather_data (.str s) fd net = ⟨[], .ok none⟩ := by
  rw [gwd_str_unfold, if_pos hs]

theorem gwd_str_net (s : String) (hs : pyStrip s ≠ "") (fd : JVal) (data : JVal) :
    get_weather_data (.str s) fd (.ok data) = ⟨[buildUrl s], aggregate s fd data⟩ := by
  rw [gwd_str_unfold, if_neg hs]

theorem gwd_str_fail (s : String) (hs : pyStrip s ≠ "") (fd : JVal) :
    get_weather_data (.str s) fd .fail = ⟨[buildUrl s], .ok none⟩ := by
  rw [gwd_str_unfold, if_neg hs]

theorem aggregate_ok_of_good (locS : String) (fd : JVal) (data : JVal)
    (hgood : goodBody data = true) : ∃ r, aggregate locS fd data = .ok r := by
  cases data <;> simp only [goodBody, Bool.false_eq_true] at hgood
  rename_i kvs
  by_cases htw : truthy ((dictGet kvs "weather").getD .null)
  · rw [if_pos htw] at hgood
    cases hv : (dictGet kvs "weather").getD .null <;> rw [hv] at hgood htw <;> try simp at hgood
    rename_i ds
    have hne : ds ≠ [] := by
      intro hnil
      rw [hnil] at htw
      simp [truthy] at htw
    have hw : pyGet (JVal.obj kvs) "weather" = .ok (.arr ds) := by
      simp [pyGet, hv]
    rw [aggregate_weather_arr locS fd (.obj kvs) ds hw hne]
    obtain ⟨os, hos⟩ := processDays_ok (ds.take (resolvedDaysCount (pyIntCoerce fd) ds.length))
      (fun d hd => hgood d (List.take_subset _ _ hd))
    rw [hos]
    exact ⟨some ⟨locS, os⟩, rfl⟩
  · unfold aggregate
    simp only [pyGet]
    rw [show pyOrList ((dictGet kvs "weather").getD .null) = .arr [] from by
      rw [pyOrList, if_neg htw]]
    exact ⟨none, rfl⟩

/-! The claims. -/

/-- C3 fails as stated: a decoded body whose `weather` list holds a non-dict
entry makes the per-day loop call `.get` on that entry (line 62), raising an
`AttributeError` that no handler catches, so an exception does propagate to
the caller. -/
theorem claim_C3_counterexample :
    (get_weather_data (.str "x") (.int 1) (.ok (.obj [("weather", .arr [.int 7])]))).retval
      = .error .attributeError := rfl

/-- C3 (amended): for every location, day count and network outcome,
provided that on a successful fetch the decoded body is a JSON object whose
`weather` value, when truthy, is a list of JSON objects in each of which the
`hourly` value, when truthy, is a list of JSON objects, `get_weather_data`
handles all failures internally and never lets an exception propagate; its
only failure signal is a null return.  (The claim as stated, which allows
the `weather` elements and `hourly` elements to be of any JSON type, is
refuted by the counterexample recorded above.) -/
theorem claim_C3 (loc fd : JVal) (net : NetResult)
    (hnet : net = .fail ∨ ∃ data, net = .ok data ∧ goodBody data = true) :
    ∃ r, (get_weather_data loc fd net).retval = .ok r := by
  cases loc with
  | str s =>
    by_cases hblank : pyStrip s = ""
    · rw [gwd_str_blank s hblank]
      exact ⟨none, rfl⟩
    · rcases hnet with rfl | ⟨data, rfl, hgood⟩
      · rw [gwd_str_fail s hblank]
        exact ⟨none, rfl⟩
      · rw [gwd_str_net s hblank]
        exact aggregate_ok_of_good s fd data hgood
  | null => exact ⟨none, rfl⟩
  | bool b => exact ⟨none, rfl⟩
  | int n => exact ⟨none, rfl⟩
  | float q => exact ⟨none, rfl⟩
  | arr xs => exact ⟨none, rfl⟩
  | obj kvs => exact ⟨none, rfl⟩

theorem claim_C3_witness :
    ((NetResult.ok (.obj [("weather", .arr [.obj [("hourly", .arr [.obj []])]])]) = .fail ∨
      ∃ data, NetResult.ok (.obj [("weather", .arr [.obj [("hourly", .arr [.obj []])]])]) = .ok data ∧
        goodBody data = true)) ∧
    ∃ r, (get_weather_data (.str "x") (.str "oops")
        (.ok (.obj [("weather", .arr [.obj [("hourly", .arr [.obj []])]])]))).retval = .ok r :=
  ⟨Or.inr ⟨_, rfl, rfl⟩,
    claim_C3 (.str "x") (.str "oops") _ (Or.inr ⟨_, rfl, rfl⟩)⟩

/-- C4: whenever `location` is not a string, or strips to the empty string,
the call returns null immediately and issues no request. -/
theorem claim_C4 (loc fd : JVal) (net : NetResult)
    (hloc : match loc with | .str s => pyStrip s = "" | _ => True) :
    get_weather_data loc fd net = { requests := [], retval := .ok none } := by
  cases loc with
  | str s => exact gwd_str_blank s hloc fd net
  | null => rfl
  | bool b => rfl
  | int n => rfl
  | float q => rfl
  | arr xs => rfl
  | obj kvs => rfl

theorem claim_C4_witness :
    (match JVal.str "   " with | .str s => pyStrip s = "" | _ => True) ∧
    get_weather_data (.str "   ") (.int 2) .fail = { requests := [], retval := .ok none } :=
  ⟨by decide, claim_C4 (.str "   ") (.int 2) .fail (by decide)⟩

/-- C7: for every decoded body object in which the `weather` key is absent,
or maps to an empty list, or maps to any falsy value, the call returns
null. -/
theorem claim_C7 (locS : String) (hloc : pyStrip locS ≠ "") (fd : JVal)
    (kvs : List (String × JVal))
    (hfalsy : truthy ((dictGet kvs "weather").getD .null) = false) :
    (get_weather_data (.str locS) fd (.ok (.obj kvs))).retval = .ok none := by
  rw [gwd_str_net locS hloc]
  unfold aggregate
  simp only [pyGet]
  rw [show pyOrList ((dictGet kvs "weather").getD .null) = .arr [] from by
    rw [pyOrList, if_neg (by simp [hfalsy])]]
  rfl

theorem claim_C7_witness :
    pyStrip "Oslo" ≠ "" ∧
    truthy ((dictGet [("weather", JVal.arr [])] "weather").getD .null) = false ∧
    (get_weather_data (.str "Oslo") (.int 3) (.ok (.obj [("weather", .arr [])]))).retval
      = .ok none :=
  ⟨by decide, by decide, claim_C7 "Oslo" (by decide) (.int 3) [("weather", .arr [])] (by decide)⟩

/-- C1: for every call whose response decodes to a body whose `weather` key
holds a non-empty list of `N` daily entries, the return value is the result
of processing exactly the first `K` upstream entries in upstream order,
where `K = min(max(D,1), N)` when the requested day count coerces to an
integer `D` and `K = min(5, N)` otherwise; on success the forecast list has
exactly `K` entries. -/
theorem claim_C1 (locS : String) (hloc : pyStrip locS ≠ "") (fd data : JVal)
    (ds : List JVal) (hw : pyGet data "weather" = .ok (.arr ds)) (hne : ds ≠ []) :
    (get_weather_data (.str locS) fd (.ok data)).retval
      = (processDays (ds.take (resolvedDaysCount (pyIntCoerce fd) ds.length))).map
          (fun fc => some { location := locS, forecast := fc })
    ∧ (∀ fc, processDays (ds.take (resolvedDaysCount (pyIntCoerce fd) ds.length)) = .ok fc →
        fc.length = resolvedDaysCount (pyIntCoerce fd) ds.length)
    ∧ resolvedDaysCount (pyIntCoerce fd) ds.length
        = (match pyIntCoerce fd with
           | some d => min (max d 1).toNat ds.length
           | none => min 5 ds.length) := by
  refine ⟨?_, ?_, ?_⟩
  · rw [gwd_str_net locS hloc fd data]
    exact aggregate_weather_arr locS fd data ds hw hne
  · intro fc hfc
    rw [processDays_length _ _ hfc, List.length_take]
    have hle : resolvedDaysCount (pyIntCoerce fd) ds.length ≤ ds.length := by
      cases pyIntCoerce fd <;> simp only [resolvedDaysCount] <;> exact min_le_right _ _
    omega
  · cases pyIntCoerce fd <;> rfl

theorem claim_C1_witness :
    pyStrip "Paris" ≠ "" ∧ pyGet c1Body "weather" = .ok (.arr c1Days) ∧ c1Days ≠ [] ∧
    ((get_weather_data (.str "Paris") (.int 3) (.ok c1Body)).retval
        = (processDays (c1Days.take (resolvedDaysCount (pyIntCoerce (.int 3)) c1Days.length))).map
            (fun fc => some { location := "Paris", forecast := fc })
      ∧ (∀ fc, processDays (c1Days.take (resolvedDaysCount (pyIntCoerce (.int 3)) c1Days.length))
            = .ok fc → fc.length = resolvedDaysCount (pyIntCoerce (.int 3)) c1Days.length)
      ∧ resolvedDaysCount (pyIntCoerce (.int 3)) c1Days.length
          = (match pyIntCoerce (.int 3) with
             | some d => min (max d 1).toNat c1Days.length
             | none => min 5 c1Days.length)) :=
  ⟨by decide, rfl, by simp [c1Days],
    claim_C1 "Paris" (by decide) (.int 3) c1Body c1Days rfl (by simp [c1Days])⟩

/-- C8: on every successful call, the result's `location` field is the
caller's original location string verbatim (untrimmed), while the single
request URL embeds the trimmed, percent-encoded form of that string. -/
theorem claim_C8 (locS : String) (fd : JVal) (net : NetResult) (r : ForecastResult)
    (hok : (get_weather_data (.str locS) fd net).retval = .ok (some r)) :
    r.location = locS ∧
    (get_weather_data (.str locS) fd net).requests
      = ["https://wttr.in/" ++ pyQuote (pyStrip locS) ++ "?format=j1"] := by
  by_cases hblank : pyStrip locS = ""
  · rw [gwd_str_blank locS hblank] at hok
    simp at hok
  · cases net with
    | fail =>
      rw [gwd_str_fail locS hblank] at hok
      simp at hok
    | ok data =>
      rw [gwd_str_net locS hblank] at hok
      rw [gwd_str_net locS hblank]
      exact ⟨(aggregate_ok_some locS fd data r hok).1, rfl⟩

theorem claim_C8_witness :
    (get_weather_data (.str " Bern ") (.int 1) (.ok c8Body)).retval
      = .ok (some ⟨" Bern ", [⟨.str "d", none, none, none, none⟩]⟩) ∧
    ((⟨" Bern ", [⟨.str "d", none, none, none, none⟩]⟩ : ForecastResult).location = " Bern " ∧
      (get_weather_data (.str " Bern ") (.int 1) (.ok c8Body)).requests
        = ["https://wttr.in/" ++ pyQuote (pyStrip " Bern ") ++ "?format=j1"]) :=
  ⟨rfl, claim_C8 " Bern " (.int 1) (.ok c8Body) ⟨" Bern ", [⟨.str "d", none, none, none, none⟩]⟩ rfl⟩

/-- C10: whenever the call returns a non-null result, the network step
succeeded with a body object whose `weather` value is a non-empty list, and
the forecast list is non-empty with at most as many entries as that
upstream list. -/
theorem claim_C10 (loc fd : JVal) (net : NetResult) (r : ForecastResult)
    (hok : (get_weather_data loc fd net).retval = .ok (some r)) :
    1 ≤ r.forecast.length ∧
    ∃ data kvs ds, net = .ok data ∧ data = .obj kvs ∧
      (dictGet kvs "weather").getD .null = .arr ds ∧ ds ≠ [] ∧
      r.forecast.length ≤ ds.length := by
  cases loc with
  | str s =>
    by_cases hblank : pyStrip s = ""
    · rw [gwd_str_blank s hblank] at hok
      simp at hok
    · cases net with
      | fail =>
        rw [gwd_str_fail s hblank] at hok
        simp at hok
      | ok data =>
        rw [gwd_str_net s hblank] at hok
        obtain ⟨-, kvs, ds, rfl, hv, hne, h1, h2⟩ := aggregate_ok_some s fd data r hok
        exact ⟨h1, _, kvs, ds, rfl, rfl, hv, hne, h2⟩
  | null => simp [get_weather_data] at hok
  | bool b => simp [get_weather_data] at hok
  | int n => simp [get_weather_data] at hok
  | float q => simp [get_weather_data] at hok
  | arr xs => simp [get_weather_data] at hok
  | obj kvs => simp [get_weather_data] at hok

theorem claim_C10_witness :
    (get_weather_data (.str "Bonn") (.int 2) (.ok c10Body)).retval
      = .ok (some ⟨"Bonn", [⟨.str "d1", none, none, none, none⟩,
          ⟨.str "d2", none, none, none, none⟩]⟩) ∧
    (1 ≤ (⟨"Bonn", [⟨.str "d1", none, none, none, none⟩,
          ⟨.str "d2", none, none, none, none⟩]⟩ : ForecastResult).forecast.length ∧
      ∃ data kvs ds, NetResult.ok c10Body = .ok data ∧ data = .obj kvs ∧
        (dictGet kvs "weather").getD .null = .arr ds ∧ ds ≠ [] ∧
        (⟨"Bonn", [⟨.str "d1", none, none, none, none⟩,
          ⟨.str "d2", none, none, none, none⟩]⟩ : ForecastResult).forecast.length ≤ ds.length) :=
  ⟨rfl, claim_C10 (.str "Bonn") (.int 2) (.ok c10Body) _ rfl⟩

theorem avgRound_mean_int (l : List Int) (n : Int) (hl : ¬l.isEmpty = true)
    (h : (l.sum : Rat) / (l.length : Rat) = (n : Rat)) : avgRound l = some n := by
  rw [avgRound, if_neg hl, h, pyRound_intCast]

theorem avgRound_fifty_sixty_seventy : avgRound [50, 60, 70] = some 60 :=
  avgRound_mean_int [50, 60, 70] 60 (by decide)
    (by norm_num [List.sum_cons, List.sum_nil])

theorem avgRound_sixty_only : avgRound [60] = some 60 :=
  avgRound_mean_int [60] 60 (by decide) (by norm_num [List.sum_cons, List.sum_nil])

/-- C2: for every daily entry whose hourly list is a list of dicts, the
output humidity equals the arithmetic mean of the integer-coercible subset
of the present hourly humidity values rounded to a nearest integer
(present-but-uncoercible values excluded from both sum and denominator,
per `presentCoercible`), and is null when that subset is empty; in
particular for hourly humidity values 50, 60, 70 the output is 60. -/
theorem claim_C2 (kvs : List (String × JVal)) (hs : List JVal)
    (hhl : hourlyListOf kvs = .arr hs) (hobj : ∀ h ∈ hs, isObj h = true) :
    (∃ out, processDay (.obj kvs) = .ok out ∧
        out.humidity = specHumidity hs ∧
        (presentCoercible "humidity" hs = [] → out.humidity = none) ∧
        (∀ z, out.humidity = some z →
          |(z : Rat) - ((presentCoercible "humidity" hs).sum : Rat)
              / ((presentCoercible "humidity" hs).length : Rat)| ≤ 1 / 2))
    ∧ processDay (.obj c2Kvs) = .ok ⟨.null, none, some 60, none, none⟩ := by
  constructor
  · refine ⟨_, processDay_obj kvs hs hhl hobj, rfl, ?_, ?_⟩
    · intro hnil
      show avgRound (presentCoercible "humidity" hs) = none
      rw [hnil]
      rfl
    · intro z hz
      have hz2 : avgRound (presentCoercible "humidity" hs) = some z := hz
      rw [avgRound] at hz2
      by_cases he : (presentCoercible "humidity" hs).isEmpty
      · rw [if_pos he] at hz2
        exact absurd hz2 (by simp)
      · rw [if_neg he] at hz2
        have hz3 := Option.some.inj hz2
        rw [← hz3]
        exact pyRound_nearest _
  · rw [processDay_obj c2Kvs c2Hs rfl (by decide)]
    rw [show avgRound (presentCoercible "humidity" c2Hs) = some 60 from
      avgRound_fifty_sixty_seventy]
    rfl

theorem claim_C2_witness :
    hourlyListOf [("hourly", JVal.arr c2WitnessHs)] = .arr c2WitnessHs ∧
    (∀ h ∈ c2WitnessHs, isObj h = true) ∧
    ((∃ out, processDay (.obj [("hourly", JVal.arr c2WitnessHs)]) = .ok out ∧
        out.humidity = specHumidity c2WitnessHs ∧
        (presentCoercible "humidity" c2WitnessHs = [] → out.humidity = none) ∧
        (∀ z, out.humidity = some z →
          |(z : Rat) - ((presentCoercible "humidity" c2WitnessHs).sum : Rat)
              / ((presentCoercible "humidity" c2WitnessHs).length : Rat)| ≤ 1 / 2))
      ∧ processDay (.obj c2Kvs) = .ok ⟨.null, none, some 60, none, none⟩) :=
  ⟨rfl, by decide, claim_C2 [("hourly", JVal.arr c2WitnessHs)] c2WitnessHs rfl (by decide)⟩

/-- C5: a daily numeric field that fails coercion never raises and never
aborts the call: with an uncoercible `avgtempC` the temperature is null and
with an uncoercible `totalprecipMM` the precipitation is null, while the
rest of the day and the overall result are still produced; in particular
`_safe_int` maps the string `n/a` to null, and a full call whose only day
carries `n/a` in both fields still returns a one-day result. -/
theorem claim_C5 (kvs : List (String × JVal)) (hs : List JVal)
    (hhl : hourlyListOf kvs = .arr hs) (hobj : ∀ h ∈ hs, isObj h = true)
    (htemp : safeInt ((dictGet kvs "avgtempC").getD .null) = none)
    (hprec : safeFloat ((dictGet kvs "totalprecipMM").getD .null) = none) :
    (∃ out, processDay (.obj kvs) = .ok out ∧ out.temp = none ∧ out.precip = none ∧
        out.date = (dictGet kvs "date").getD .null ∧
        out.humidity = avgRound (presentCoercible "humidity" hs) ∧
        out.wind = listMax (presentCoercible "windspeedKmph" hs))
    ∧ safeInt (.str "n/a") = none
    ∧ (get_weather_data (.str "Rome") (.int 1) (.ok c5Body)).retval
        = .ok (some ⟨"Rome", [⟨.str "2025-01-01", none, none, none, none⟩]⟩) :=
  ⟨⟨_, processDay_obj kvs hs hhl hobj, htemp, hprec, rfl, rfl, rfl⟩, rfl, rfl⟩

theorem claim_C5_witness :
    hourlyListOf [("avgtempC", JVal.str "n/a"), ("totalprecipMM", JVal.str "x")] = .arr [] ∧
    (∀ h ∈ ([] : List JVal), isObj h = true) ∧
    safeInt ((dictGet [("avgtempC", JVal.str "n/a"), ("totalprecipMM", JVal.str "x")]
      "avgtempC").getD .null) = none ∧
    safeFloat ((dictGet [("avgtempC", JVal.str "n/a"), ("totalprecipMM", JVal.str "x")]
      "totalprecipMM").getD .null) = none ∧
    ((∃ out, processDay (.obj [("avgtempC", JVal.str "n/a"), ("totalprecipMM", JVal.str "x")])
          = .ok out ∧ out.temp = none ∧ out.precip = none ∧
        out.date = (dictGet [("avgtempC", JVal.str "n/a"), ("totalprecipMM", JVal.str "x")]
          "date").getD .null ∧
        out.humidity = avgRound (presentCoercible "humidity" []) ∧
        out.wind = listMax (presentCoercible "windspeedKmph" []))
      ∧ safeInt (.str "n/a") = none
      ∧ (get_weather_data (.str "Rome") (.int 1) (.ok c5Body)).retval
          = .ok (some ⟨"Rome", [⟨.str "2025-01-01", none, none, none, none⟩]⟩)) :=
  ⟨rfl, by decide, rfl, rfl,
    claim_C5 [("avgtempC", JVal.str "n/a"), ("totalprecipMM", JVal.str "x")] [] rfl
      (by decide) rfl rfl⟩

/-- C6: for every daily entry whose hourly list is a list of dicts, the
output wind equals the maximum of the integer-coercible subset of the
present hourly windspeedKmph values — an element of that subset bounding
every element from above — and is null exactly when that subset is empty;
in particular for hourly wind values 10, 25, 15 the output is 25. -/
theorem claim_C6 (kvs : List (String × JVal)) (hs : List JVal)
    (hhl : hourlyListOf kvs = .arr hs) (hobj : ∀ h ∈ hs, isObj h = true) :
    (∃ out, processDay (.obj kvs) = .ok out ∧
        out.wind = listMax (presentCoercible "windspeedKmph" hs) ∧
        (presentCoercible "windspeedKmph" hs = [] → out.wind = none) ∧
        (∀ m, out.wind = some m → m ∈ presentCoercible "windspeedKmph" hs ∧
            ∀ x ∈ presentCoercible "windspeedKmph" hs, x ≤ m) ∧
        (presentCoercible "windspeedKmph" hs ≠ [] → ∃ m, out.wind = some m))
    ∧ processDay (.obj c6Kvs) = .ok ⟨.null, none, none, some 25, none⟩ := by
  constructor
  · refine ⟨_, processDay_obj kvs hs hhl hobj, rfl, ?_, ?_, ?_⟩
    · intro hnil
      show listMax (presentCoercible "windspeedKmph" hs) = none
      rw [hnil]
      rfl
    · intro m hm
      exact listMax_spec _ m hm
    · intro hne
      cases hl : presentCoercible "windspeedKmph" hs with
      | nil => exact absurd hl hne
      | cons x xs =>
        exact ⟨xs.foldl max x, rfl⟩
  · rfl

theorem claim_C6_witness :
    hourlyListOf c6Kvs = .arr c6Hs ∧ (∀ h ∈ c6Hs, isObj h = true) ∧
    ((∃ out, processDay (.obj c6Kvs) = .ok out ∧
        out.wind = listMax (presentCoercible "windspeedKmph" c6Hs) ∧
        (presentCoercible "windspeedKmph" c6Hs = [] → out.wind = none) ∧
        (∀ m, out.wind = some m → m ∈ presentCoercible "windspeedKmph" c6Hs ∧
            ∀ x ∈ presentCoercible "windspeedKmph" c6Hs, x ≤ m) ∧
        (presentCoercible "windspeedKmph" c6Hs ≠ [] → ∃ m, out.wind = some m))
      ∧ processDay (.obj c6Kvs) = .ok ⟨.null, none, none, some 25, none⟩) :=
  ⟨rfl, by decide, claim_C6 c6Kvs c6Hs rfl (by decide)⟩

/-- C9: `_safe_int` succeeds exactly when the Python string rendering of its
argument parses as an integer literal — ints round-trip, strings go through
integer-literal parsing, and `None`, bools, floats (whose rendering always
carries a decimal point or exponent), lists and dicts always fail; in
consequence a present hourly value that is a non-integral float or a
boolean coerces to null and is excluded from the humidity and wind
aggregates even though it is a number: with hourly humidity values 50.5,
60, `True` and wind values 10.5, 25, `True` the aggregates are 60 and 25. -/
theorem claim_C9 :
    (∀ s, safeInt (.str s) = parseIntPy s) ∧
    (∀ n : Int, safeInt (.int n) = some n) ∧
    (∀ q : Rat, safeInt (.float q) = none) ∧
    (∀ b : Bool, safeInt (.bool b) = none) ∧
    safeInt .null = none ∧
    (∀ xs : List JVal, safeInt (.arr xs) = none) ∧
    (∀ kvs : List (String × JVal), safeInt (.obj kvs) = none) ∧
    presentCoercible "humidity" c9Hs = [60] ∧
    presentCoercible "windspeedKmph" c9Hs = [25] ∧
    processDay (.obj c9Kvs) = .ok ⟨.null, none, some 60, some 25, none⟩ := by
  refine ⟨fun s => rfl, fun n => rfl, fun q => rfl, fun b => rfl, rfl, fun xs => rfl,
    fun kvs => rfl, rfl, rfl, ?_⟩
  rw [processDay_obj c9Kvs c9Hs rfl (by decide)]
  rw [show avgRound (presentCoercible "humidity" c9Hs) = some 60 from avgRound_sixty_only]
  rfl

end Weather
